import Mathlib

/-!
Author Retrieval System - verification of spec claims.

Shallow embedding of the Author Retrieval repository (React/TypeScript
frontend plus the FastAPI/FAISS backend described by the specification).
Frontend logic is translated from the TypeScript sources under
`frontend/src`; the backend engine is not part of the shipped sources, so
those operations are modelled from the specification (each such definition
says so in its doc comment).
-/

namespace AuthorRetrieval

/-! ## Frontend: TopicFilter.tsx -/

/-- Function `toggle` from `TopicFilter.tsx`:
`setSelected(selected.includes(id) ? selected.filter(x => x !== id) : [...selected, id])`.
Returns the new selection passed to `setSelected`. -/
def toggle (selected : List Int) (id : Int) : List Int :=
  if selected.contains id then selected.filter (fun x => x ≠ id)
  else selected ++ [id]

/-! ## Frontend: App.tsx (SearchPage) -/

/-- A JavaScript runtime value as produced by `JSON.parse`; numbers are
modelled as `Option ℚ` where `none` stands for a non-finite number
(`NaN`, `Infinity`, `-Infinity`). -/
inductive Json where
  | null : Json
  | bool (b : Bool) : Json
  | num (q : Option ℚ) : Json
  | str (s : String) : Json
  | arr (xs : List Json) : Json

/-- A JS number is finite when it is neither `NaN` nor `±Infinity`. -/
def Json.isFiniteNum : Json → Bool
  | .num (some _) => true
  | _ => false

/-- Function `getInitialTopicIds` from `App.tsx`.

`toNumber` models the JS `Number(s)` conversion on an already-trimmed
segment (`none` = non-finite result, i.e. `NaN` or `±Infinity`); the
theorems hold for every such conversion because the source filters with
`Number.isFinite` afterwards. `fromUrl` is `sp.get("topics")` (`none`
when the parameter is absent). `parsed` is the outcome of
`JSON.parse(localStorage.getItem("topicIds") || "[]")`: `Except.error ()`
when parsing throws, otherwise the parsed JS value (the source does not
check that it is an array of numbers).

Source:
```
const fromUrl = sp.get("topics");
if (fromUrl) {
  return fromUrl.split(",").map(s => s.trim()).filter(Boolean)
    .map(Number).filter(n => Number.isFinite(n));
}
try { return JSON.parse(localStorage.getItem("topicIds") || "[]"); }
catch { return []; }
```
The returned JS value is modelled as `Json`. -/
def getInitialTopicIds (toNumber : String → Option ℚ)
    (fromUrl : Option String) (parsed : Except Unit Json) : Json :=
  match fromUrl with
  | some s =>
    if s ≠ "" then
      Json.arr (((((s.splitOn ",").map (fun t => t.trim)).filter
        (fun t => t ≠ "")).map (fun t => Json.num (toNumber t))).filter
        (fun j => j.isFiniteNum))
    else
      match parsed with
      | .ok v => v
      | .error _ => Json.arr []
  | none =>
    match parsed with
    | .ok v => v
    | .error _ => Json.arr []

/-- Search kinds offered by the frontend (`type Kind = "abstracts" | "authors"`). -/
inductive Kind where
  | abstracts : Kind
  | authors : Kind
deriving DecidableEq, Repr

/-- The `disabled` memo of `SearchPage` in `App.tsx`:
for abstracts the search button is disabled iff
`!keyword.trim() && topicIds.length === 0`, for authors iff
`!keyword.trim()`. -/
def SearchPage.disabled (kind : Kind) (keyword : String) (topicIds : List Int) : Bool :=
  match kind with
  | .abstracts => keyword.trim = "" && topicIds.length = 0
  | .authors => keyword.trim = ""

/-- What the `SearchPage` JSX renders, as independent visibility flags
(several can be shown at once in the source). -/
structure RenderedView where
  showsError : Bool
  showsLoader : Bool
  showsEmpty : Bool
  showsResults : Bool
deriving DecidableEq, Repr

/-- The render logic of `SearchPage` in `App.tsx`:
`{error && <ErrorAlert/>}`, `{loading && <Loader/>}`,
`{!loading && requested && results.length === 0 ? <EmptyState/> : null}`,
`{!loading && results.length > 0 && <ResultList/>...}`. -/
def SearchPage.render (loading : Bool) (requested : Bool)
    (error : Option String) (results : List Nat) : RenderedView :=
  { showsError := error.isSome
    showsLoader := loading
    showsEmpty := !loading && requested && results.length = 0
    showsResults := !loading && decide (0 < results.length) }

/-! ## Frontend: Admin.tsx -/

/-- Compute devices (`"cpu" | "cuda" | "mps"` in `Admin.tsx`). -/
inductive Device where
  | cpu : Device
  | cuda : Device
  | mps : Device
deriving DecidableEq, Repr

/-- Per-device availability flags (`available: {cpu, cuda, mps}` of the
`Status` type in `Admin.tsx`). -/
structure Avail where
  cpu : Bool
  cuda : Bool
  mps : Bool
deriving DecidableEq, Repr

/-- Whether a device is reported available in an availability record. -/
def Avail.reports (a : Avail) : Device → Bool
  | .cpu => a.cpu
  | .cuda => a.cuda
  | .mps => a.mps

/-- The model part of the `Status` payload consumed by `Admin.tsx`
(`model: {name, device, available}`; the name is irrelevant here). -/
structure ModelStatus where
  device : Device
  available : Avail
deriving DecidableEq, Repr

/-- Score modes (`score_mode: "cosine" | "faiss"` in `Admin.tsx`). -/
inductive ScoreMode where
  | cosine : ScoreMode
  | faiss : ScoreMode
deriving DecidableEq, Repr

/-- The wire string of a score mode (the `value` attribute of the two
`<option>` elements in `Admin.tsx`). -/
def ScoreMode.wire : ScoreMode → String
  | .cosine => "cosine"
  | .faiss => "faiss"

/-- The `value` strings of the options offered by the score-mode
`<select>` in `Admin.tsx`, in document order:
`<option value="cosine">` then `<option value="faiss">`. -/
def scoreModeSelectValues : List String := ["cosine", "faiss"]

/-- Memo `canSaveDevice` from `Admin.tsx`:
```
if (!status) return false;
if (device === currentDevice) return false;
if (device === "cuda" && !available.cuda) return false;
if (device === "mps" && !available.mps) return false;
return true;
```
(`currentDevice = status?.model.device`, `available = status?.model.available || ...`;
with `status` present the default never applies). -/
def canSaveDevice (status : Option ModelStatus) (device : Device) : Bool :=
  match status with
  | none => false
  | some st =>
    if device = st.device then false
    else if device = .cuda && !st.available.cuda then false
    else if device = .mps && !st.available.mps then false
    else true

/-- Outcome of the frontend `resetDb` handler in `Admin.tsx` before any
response arrives: either no HTTP request is sent (an error message is
shown instead) or a POST to `/admin/reset` is issued with the given
`confirm` body field. -/
inductive ResetAction where
  | noRequest (message : String) : ResetAction
  | request (confirmField : String) : ResetAction
deriving DecidableEq, Repr

/-- Handler `resetDb` from `Admin.tsx`:
```
if (confirmText !== "RESET") {
  showMsg('Bitte "RESET" eingeben, um zu bestätigen.', "error");
  return;
}
...
await axios.post(`${API_BASE}/admin/reset`, { confirm: "RESET" });
```
-/
def resetDb (confirmText : String) : ResetAction :=
  if confirmText ≠ "RESET" then
    ResetAction.noRequest "Bitte RESET eingeben, um zu bestaetigen."
  else
    ResetAction.request "RESET"

/-- The `disabled` attribute of the Danger-Zone reset button in
`Admin.tsx`: `disabled={busy || confirmText !== "RESET"}`. -/
def resetButtonDisabled (busy : Bool) (confirmText : String) : Bool :=
  busy || confirmText ≠ "RESET"

/-! ## Backend engine, modelled from the specification

The backend (FastAPI service with encoder, FAISS indices and relational
store) is not among the shipped sources; the definitions below are
modelled from the specification. -/

/-- Modelled from the spec: the error taxonomy of §7 (the backend source
is missing from the repository). -/
inductive ApiError where
  | validation : ApiError
  | notFound : ApiError
  | deviceUnavailable : ApiError
  | invalidDevice : ApiError
  | encoding : ApiError
  | indexBuild : ApiError
  | concurrencyConflict : ApiError
deriving DecidableEq, Repr

/-- An embedding vector (fixed-length float vector; modelled over ℚ). -/
abbrev Emb := List ℚ

/-- Modelled from the spec: pagination of a result list (`page` is
1-based, as sent by the frontend). Pages beyond the list are empty. -/
def paginate (l : List Nat) (page pageSize : Nat) : List Nat :=
  (l.drop ((page - 1) * pageSize)).take pageSize

/-- Modelled from the spec: `search_abstracts(keyword, topic_ids?, page,
page_size)` of §4.4 (the backend source is missing from the repository).
`ranked` is the id list returned by the abstracts VectorIndex for the
encoded keyword (already rank-ordered), `topicsOf` maps an abstract id to
its topic ids, and `byTopic` is the id list obtained by filtering
directly by topic membership when the vector step is skipped. Fails with
`ValidationError` iff keyword and topic filter are both empty; otherwise
intersects the ranked pool with the topic filter (preserving rank order)
and paginates. -/
def search_abstracts (ranked : List Nat) (topicsOf : Nat → List Nat)
    (byTopic : List Nat) (keyword : String) (topicIds : List Nat)
    (page pageSize : Nat) : Except ApiError (List Nat) :=
  if keyword = "" && topicIds.isEmpty then
    .error .validation
  else if keyword ≠ "" then
    let pool := if topicIds.isEmpty then ranked
      else ranked.filter (fun i => (topicsOf i).any (fun t => topicIds.contains t))
    .ok (paginate pool page pageSize)
  else
    .ok (paginate byTopic page pageSize)

/-- Modelled from the spec: `search_authors(keyword, page, page_size)` of
§4.4 (the backend source is missing from the repository); same as
`search_abstracts` without topic filtering, keyword required. -/
def search_authors (ranked : List Nat) (keyword : String)
    (page pageSize : Nat) : Except ApiError (List Nat) :=
  if keyword = "" then .error .validation
  else .ok (paginate ranked page pageSize)

/-- Modelled from the spec: parsing of the requested device kind; a
string that is not a recognized kind yields `none` (`InvalidDevice`). -/
def parseDevice (s : String) : Option Device :=
  if s = "cpu" then some Device.cpu
  else if s = "cuda" then some Device.cuda
  else if s = "mps" then some Device.mps
  else none

/-- Modelled from the spec: the Encoder Manager state of §4.1 — the
current device plus the availability set queried once at process start
and cached (the backend source is missing from the repository). -/
structure EncoderState where
  current : Device
  avail : Avail
deriving DecidableEq, Repr

/-- Modelled from the spec: `switch_device(requested)` of §4.1 (the
backend source is missing from the repository). Validates `requested`
against the cached availability set; `InvalidDevice` for an unrecognized
kind, `DeviceUnavailable` when the device is not in the availability
set; only on success does it mutate the current device. Returns the new
state together with the error, if any. -/
def switch_device (st : EncoderState) (requested : String) :
    EncoderState × Option ApiError :=
  match parseDevice requested with
  | none => (st, some ApiError.invalidDevice)
  | some d =>
    if st.avail.reports d then ({ st with current := d }, none)
    else (st, some ApiError.deviceUnavailable)

/-- Modelled from the spec: validation of the `score_mode` value in
`set_config` — a pure config write with no validation beyond enum
membership (the backend source is missing from the repository). -/
def parseScoreMode (s : String) : Option ScoreMode :=
  if s = "cosine" then some ScoreMode.cosine
  else if s = "faiss" then some ScoreMode.faiss
  else none

/-! ## Backend relational store and import pipeline, modelled from the spec -/

/-- Relational topic record (`TopicRecord`: unique id, title). -/
structure Topic where
  id : Nat
  title : String
deriving DecidableEq, Repr

/-- Relational author record (`AuthorRecord`: unique id, name, optional
embedding; the author schema is closed to these fields). -/
structure Author where
  id : Nat
  name : String
deriving DecidableEq, Repr

/-- Relational abstract record (`AbstractRecord`; the optional metadata
fields are stored verbatim and play no role in any claim, so only the
claim-relevant fields are carried). -/
structure Abstract where
  id : Nat
  title : String
  content_raw : String
  embedding : Option Emb
deriving DecidableEq, Repr

/-- Modelled from the spec: the relational store plus the abstracts
VectorIndex content (the backend source is missing from the repository).
Link sets are mathematical sets: `addLink` never duplicates a pair. -/
structure DB where
  abstracts : List Abstract
  authors : List Author
  topics : List Topic
  abstractTopicLinks : List (Nat × Nat)
  abstractAuthorLinks : List (Nat × Nat)
  absIndex : List (Nat × Emb)
deriving DecidableEq, Repr

/-- The empty store (also the state re-initialized by `reset`). -/
def DB.empty : DB :=
  { abstracts := [], authors := [], topics := [],
    abstractTopicLinks := [], abstractAuthorLinks := [], absIndex := [] }

/-- The next free id, given the ids already in use. -/
def nextFreeId (ids : List Nat) : Nat :=
  ids.foldr max 0 + 1

/-- Deduplicated link insertion: re-adding an existing pair is a no-op. -/
def addLink (links : List (Nat × Nat)) (l : Nat × Nat) : List (Nat × Nat) :=
  if links.contains l then links else links ++ [l]

/-- Upsert into a VectorIndex: replace the vector of an existing id,
otherwise append the new entry. -/
def upsertIndex (idx : List (Nat × Emb)) (id : Nat) (e : Emb) : List (Nat × Emb) :=
  if idx.any (fun p => p.1 = id) then
    idx.map (fun p => if p.1 = id then (id, e) else p)
  else idx ++ [(id, e)]

/-- Modelled from the spec: topic resolution, step 3 of the import
pipeline (§4.3; the backend source is missing from the repository). If a
topic id is given, link to it, creating a placeholder topic (empty
title) if unknown; else if only a title is given, find-or-create a topic
by that title; if both are given, the id takes priority and the title is
informational only. Returns the updated topic table and the id to link
(none when neither field is given). -/
def resolveTopic (topics : List Topic) (topicId : Option Nat)
    (topicTitle : Option String) : List Topic × Option Nat :=
  match topicId with
  | some i =>
    if topics.any (fun tp => tp.id = i) then (topics, some i)
    else (topics ++ [{ id := i, title := "" }], some i)
  | none =>
    match topicTitle with
    | some t =>
      match topics.find? (fun tp => tp.title = t) with
      | some tp => (topics, some tp.id)
      | none =>
        let fresh := nextFreeId (topics.map (fun tp => tp.id))
        (topics ++ [{ id := fresh, title := t }], some fresh)
    | none => (topics, none)

/-- An author reference in an import record: either an object
`{author_id?, name?}` (unrecognized fields are dropped at the boundary)
or a plain name string. -/
inductive AuthorInput where
  | ref (author_id : Option Nat) (name : Option String) : AuthorInput
  | plain (name : String) : AuthorInput
deriving DecidableEq, Repr

/-- Modelled from the spec: author resolution, step 4 of the import
pipeline (§4.3; the backend source is missing from the repository). If
an author id is given, link to it, creating a minimal author (empty
name) if unknown; if only a plain name is given, find-or-create an
author by exact name match. -/
def resolveAuthor (authors : List Author) : AuthorInput → List Author × Option Nat
  | .ref (some i) _ =>
    if authors.any (fun a => a.id = i) then (authors, some i)
    else (authors ++ [{ id := i, name := "" }], some i)
  | .ref none (some n) =>
    (match authors.find? (fun a => a.name = n) with
     | some a => (authors, some a.id)
     | none =>
       let fresh := nextFreeId (authors.map (fun a => a.id))
       (authors ++ [{ id := fresh, name := n }], some fresh))
  | .ref none none => (authors, none)
  | .plain n =>
    match authors.find? (fun a => a.name = n) with
    | some a => (authors, some a.id)
    | none =>
      let fresh := nextFreeId (authors.map (fun a => a.id))
      (authors ++ [{ id := fresh, name := n }], some fresh)

/-- An import record as parsed at the boundary (`AbstractImportRecord`
of §6, restricted to the claim-relevant fields; unknown fields are
dropped by construction). -/
structure ImportRecord where
  id : Option Nat
  title : Option String
  content_raw : Option String
  topic_id : Option Nat
  topic_title : Option String
  authors : List AuthorInput
deriving DecidableEq, Repr

/-- Modelled from the spec: import of one record (§4.3; the backend
source is missing from the repository). `encode` is the Encoder Manager
(`none` = per-record `EncodingError`). A record missing title or primary
content is a per-item `ValidationError`; otherwise exactly one new
abstract row is inserted (under the supplied id when free, else under
the next free id), topic and authors are resolved, links are
deduplicated, and on encoding success the embedding is stored and
upserted into the abstracts VectorIndex. -/
def importRecord (encode : String → Option Emb) (db : DB)
    (r : ImportRecord) : Except String DB :=
  match r.title, r.content_raw with
  | some t, some c =>
    let aid :=
      match r.id with
      | some i =>
        if db.abstracts.any (fun a => a.id = i) then
          nextFreeId (db.abstracts.map (fun a => a.id))
        else i
      | none => nextFreeId (db.abstracts.map (fun a => a.id))
    let emb := encode (t ++ " " ++ c)
    let db1 := { db with
      abstracts := db.abstracts ++
        [({ id := aid, title := t, content_raw := c, embedding := emb } : Abstract)],
      absIndex := match emb with
        | some e => upsertIndex db.absIndex aid e
        | none => db.absIndex }
    let res := resolveTopic db1.topics r.topic_id r.topic_title
    let db2 := { db1 with
      topics := res.1,
      abstractTopicLinks := match res.2 with
        | some tid => addLink db1.abstractTopicLinks (aid, tid)
        | none => db1.abstractTopicLinks }
    let final := r.authors.foldl
      (fun (acc : List Author × List (Nat × Nat)) ai =>
        let resA := resolveAuthor acc.1 ai
        (resA.1, match resA.2 with
          | some au => addLink acc.2 (aid, au)
          | none => acc.2))
      (db2.authors, db2.abstractAuthorLinks)
    .ok { db2 with authors := final.1, abstractAuthorLinks := final.2 }
  | _, _ => .error "missing title or content_raw"

/-- Batch result of an import (`{imported_count, skipped_count, errors}`). -/
structure ImportResult where
  imported : Nat
  skipped : Nat
  errors : List String
deriving DecidableEq, Repr

/-- Modelled from the spec: batch import (§4.3; the backend source is
missing from the repository). Per-record failures are captured and
aggregated and never abort the batch; there is no global rollback. -/
def importBatch (encode : String → Option Emb) (db : DB) :
    List ImportRecord → DB × ImportResult
  | [] => (db, { imported := 0, skipped := 0, errors := [] })
  | r :: rs =>
    match importRecord encode db r with
    | .ok db2 =>
      let rest := importBatch encode db2 rs
      (rest.1, { rest.2 with imported := rest.2.imported + 1 })
    | .error e =>
      let rest := importBatch encode db rs
      (rest.1, { rest.2 with skipped := rest.2.skipped + 1,
                             errors := e :: rest.2.errors })

/-- Modelled from the spec: `reset(confirmation_token)` of §4.5 (the
backend source is missing from the repository). Requires the exact
confirmation string; on match it deletes all relational data and clears
the indices, re-initializing empty state; otherwise it fails with
`ValidationError` and touches nothing. -/
def reset (db : DB) (confirm : String) : DB × Option ApiError :=
  if confirm = "RESET" then (DB.empty, none)
  else (db, some ApiError.validation)

/-! ## Backend VectorIndex generations, modelled from the spec (§4.2)

To state the all-or-nothing rebuild property, every index entry carries
the rebuild generation it belongs to; the claim is that a reader never
observes an index whose entries span two generations. -/

/-- One VectorIndex entry, tagged with the rebuild generation that
produced it. -/
structure IdxEntry where
  id : Nat
  emb : Emb
  gen : Nat
deriving DecidableEq, Repr

/-- Modelled from the spec: a VectorIndex as observed by a reader — the
current generation number and the entry list (the backend source is
missing from the repository). -/
structure GenIndex where
  gen : Nat
  entries : List IdxEntry
deriving DecidableEq, Repr

/-- The index at process start: generation 0, no entries. -/
def GenIndex.init : GenIndex :=
  { gen := 0, entries := [] }

/-- One mutating VectorIndex operation of §4.2. A `rebuild_from` input is
an iterable whose items each either yield an (id, embedding) pair or
fail (a per-item failure fails the whole build). -/
inductive IdxOp where
  | upsert (id : Nat) (e : Emb) : IdxOp
  | remove (id : Nat) : IdxOp
  | rebuild_from (input : List (Nat × Except Unit Emb)) : IdxOp

/-- Collects a rebuild input; any failing item fails the whole build. -/
def buildAll : List (Nat × Except Unit Emb) → Except Unit (List (Nat × Emb))
  | [] => .ok []
  | (i, .ok e) :: rest =>
    match buildAll rest with
    | .ok l => .ok ((i, e) :: l)
    | .error u => .error u
  | (_, .error u) :: _ => .error u

/-- Modelled from the spec: one step of the VectorIndex state machine
(§4.2; the backend source is missing from the repository). `upsert`
inserts or replaces within the current generation; `remove` deletes if
present; `rebuild_from` builds a complete new generation and swaps it in
atomically, and a failed build keeps the previous generation and
surfaces `IndexBuildError` — it never applies a partial result. -/
def idxStep (st : GenIndex) : IdxOp → GenIndex × Option ApiError
  | .upsert id e =>
    if st.entries.any (fun en => en.id = id) then
      let replaced := st.entries.map
        (fun en => if en.id = id then { id := id, emb := e, gen := en.gen } else en)
      ({ st with entries := replaced }, none)
    else
      let appended := st.entries ++ [{ id := id, emb := e, gen := st.gen }]
      ({ st with entries := appended }, none)
  | .remove id =>
    ({ st with entries := st.entries.filter (fun en => en.id ≠ id) }, none)
  | .rebuild_from input =>
    match buildAll input with
    | .ok l =>
      ({ gen := st.gen + 1,
         entries := l.map (fun p => { id := p.1, emb := p.2, gen := st.gen + 1 }) }, none)
    | .error _ => (st, some ApiError.indexBuild)

/-- Runs a sequence of index operations from a state, discarding the
per-operation errors (the state transitions are what a reader sees). -/
def runIdx (st : GenIndex) : List IdxOp → GenIndex
  | [] => st
  | op :: ops => runIdx (idxStep st op).1 ops

/-- An observation mixes no generations: every entry carries the
generation of the index it sits in. -/
def GenIndex.singleGeneration (st : GenIndex) : Prop :=
  ∀ en ∈ st.entries, en.gen = st.gen

/-! ## Theorems for the spec claims -/

/-- C10: Topic-selection toggling is an involution on membership: for
every duplicate-free selection list and every topic id, applying
TopicFilter's toggle for that id twice yields a selection whose set of
ids equals the original selection's set, and a single toggle flips
exactly that id's membership while leaving all other ids' membership
unchanged. -/
theorem C10_toggle_involution (selected : List Int) (id : Int)
    (hnd : selected.Nodup) :
    (∀ x : Int, x ∈ toggle (toggle selected id) id ↔ x ∈ selected)
    ∧ ((id ∈ toggle selected id) ↔ id ∉ selected)
    ∧ (∀ x : Int, x ≠ id → (x ∈ toggle selected id ↔ x ∈ selected)) := by
  refine ⟨?_, ?_, ?_⟩
  · intro x
    by_cases h : id ∈ selected
    · by_cases hx : x = id
      · subst hx
        simp [toggle, h, List.mem_filter]
      · simp [toggle, h, List.mem_filter, hx]
    · by_cases hx : x = id
      · subst hx
        simp [toggle, h, List.mem_filter]
      · simp [toggle, h, List.mem_filter, hx]
  · by_cases h : id ∈ selected
    · simp [toggle, h, List.mem_filter]
    · simp [toggle, h]
  · intro x hx
    by_cases h : id ∈ selected
    · simp [toggle, h, List.mem_filter, hx]
    · simp [toggle, h, hx]

/-- Witness for C10 at the concrete selection `[1, 2]` and id `3`. -/
theorem C10_witness :
    ([1, 2] : List Int).Nodup
    ∧ ((∀ x : Int, x ∈ toggle (toggle [1, 2] 3) 3 ↔ x ∈ ([1, 2] : List Int))
      ∧ (((3 : Int) ∈ toggle [1, 2] 3) ↔ (3 : Int) ∉ ([1, 2] : List Int))
      ∧ (∀ x : Int, x ≠ 3 → (x ∈ toggle [1, 2] 3 ↔ x ∈ ([1, 2] : List Int)))) :=
  ⟨by decide, C10_toggle_involution [1, 2] 3 (by decide)⟩

/-- C2: reset requires the exact confirmation token: for every
confirmation input, the reset request is issued only when the input
equals the string "RESET" (and then the request body is exactly
{confirm: "RESET"}); any other input fails with a ValidationError / an
error message and no reset request is sent, so no data is deleted. -/
theorem C2_reset_token (input : String) (db : DB) (confirm : String) :
    ((∃ body, resetDb input = ResetAction.request body) ↔ input = "RESET")
    ∧ (input = "RESET" → resetDb input = ResetAction.request "RESET")
    ∧ (input ≠ "RESET" →
        resetDb input = ResetAction.noRequest "Bitte RESET eingeben, um zu bestaetigen.")
    ∧ (resetButtonDisabled false input = false ↔ input = "RESET")
    ∧ ((reset db confirm).2 = some ApiError.validation ↔ confirm ≠ "RESET")
    ∧ (confirm ≠ "RESET" → (reset db confirm).1 = db) := by
  by_cases hi : input = "RESET" <;> by_cases hc : confirm = "RESET" <;>
    simp [resetDb, resetButtonDisabled, reset, hi, hc]

/-- Witness for C2 at the concrete inputs "reset" (frontend) and "no"
(backend token). -/
theorem C2_witness :
    resetDb "reset" = ResetAction.noRequest "Bitte RESET eingeben, um zu bestaetigen."
    ∧ (reset DB.empty "no").1 = DB.empty
    ∧ (reset DB.empty "no").2 = some ApiError.validation :=
  ⟨(C2_reset_token "reset" DB.empty "no").2.2.1 (by decide),
   (C2_reset_token "reset" DB.empty "no").2.2.2.2.2 (by decide),
   ((C2_reset_token "reset" DB.empty "no").2.2.2.2.1).mpr (by decide)⟩

/-- C6: the score_mode configuration value ranges over exactly two
modes, cosine and the ANN-heuristic mode; set_config accepts score
settings with no validation beyond membership in this enumeration; the
code represents the ANN-heuristic mode by the value "faiss" and offers
exactly the two options cosine and faiss. -/
theorem C6_score_mode_enum :
    (∀ m : ScoreMode, m = ScoreMode.cosine ∨ m = ScoreMode.faiss)
    ∧ scoreModeSelectValues = ["cosine", "faiss"]
    ∧ ScoreMode.cosine.wire = "cosine"
    ∧ ScoreMode.faiss.wire = "faiss"
    ∧ (∀ s : String, (parseScoreMode s).isSome = true ↔ s ∈ scoreModeSelectValues) := by
  refine ⟨fun m => ?_, rfl, rfl, rfl, fun s => ?_⟩
  · cases m
    · exact Or.inl rfl
    · exact Or.inr rfl
  · by_cases h1 : s = "cosine" <;> by_cases h2 : s = "faiss" <;>
      simp [parseScoreMode, scoreModeSelectValues, h1, h2]

/-- C1: search_abstracts fails with a ValidationError exactly when the
keyword is empty AND the topic_ids list is empty, and search_authors
fails with a ValidationError exactly when the keyword is empty (topic
filtering does not apply to authors); in the frontend the search action
is disabled under precisely these conditions (with the keyword trimmed
of whitespace). -/
theorem C1_search_validation (ranked byTopic : List Nat)
    (topicsOf : Nat → List Nat) (keyword : String) (topicIds : List Nat)
    (page pageSize : Nat) (kw : String) (tids : List Int) :
    (search_abstracts ranked topicsOf byTopic keyword topicIds page pageSize
        = Except.error ApiError.validation ↔ (keyword = "" ∧ topicIds = []))
    ∧ (search_authors ranked keyword page pageSize
        = Except.error ApiError.validation ↔ keyword = "")
    ∧ (SearchPage.disabled Kind.abstracts kw tids = true
        ↔ (kw.trim = "" ∧ tids = []))
    ∧ (SearchPage.disabled Kind.authors kw tids = true ↔ kw.trim = "") := by
  refine ⟨?_, ?_, ?_, ?_⟩
  · by_cases hk : keyword = "" <;> by_cases ht : topicIds = [] <;>
      simp [search_abstracts, hk, ht, List.isEmpty_iff]
  · by_cases hk : keyword = "" <;> simp [search_authors, hk]
  · by_cases hk : kw.trim = "" <;> by_cases ht : tids = [] <;>
      simp [SearchPage.disabled, hk, ht, List.length_eq_zero]
  · by_cases hk : kw.trim = "" <;> simp [SearchPage.disabled, hk]

/-- C9 counterexample: the claim quantifies over every URL search-params
value of the "topics" parameter, but for the empty value (`?topics=`)
the source falls back to the stored "topicIds" value unchecked — here
the stored JSON parses to `[null]`, and the returned array's element is
not a finite number. -/
theorem C9_counterexample :
    getInitialTopicIds (fun _ => none) (some "")
        (Except.ok (Json.arr [Json.null])) = Json.arr [Json.null]
    ∧ Json.isFiniteNum Json.null = false :=
  ⟨rfl, rfl⟩

/-- C9 amended: getInitialTopicIds is total; for every nonempty value of
the "topics" parameter, every element of the returned array is a finite
number (blank and non-numeric segments are dropped); when the parameter
is absent (or its value is empty) the stored "topicIds" value is
returned as parsed, with the empty array when that value fails to
parse. -/
theorem C9_topic_ids_parse (toNumber : String → Option ℚ) (s : String)
    (parsed : Except Unit Json) (v : Json) (hs : s ≠ "") :
    (∃ l, getInitialTopicIds toNumber (some s) parsed = Json.arr l
        ∧ ∀ j ∈ l, j.isFiniteNum = true)
    ∧ getInitialTopicIds toNumber none (Except.error ()) = Json.arr []
    ∧ getInitialTopicIds toNumber none (Except.ok v) = v
    ∧ getInitialTopicIds toNumber (some "") (Except.error ()) = Json.arr []
    ∧ getInitialTopicIds toNumber (some "") (Except.ok v) = v := by
  refine ⟨?_, rfl, rfl, rfl, rfl⟩
  refine ⟨(((((s.splitOn ",").map (fun t => t.trim)).filter
      (fun t => t ≠ "")).map (fun t => Json.num (toNumber t))).filter
      (fun j => j.isFiniteNum)), ?_, ?_⟩
  · simp [getInitialTopicIds, hs]
  · intro j hj
    exact (List.mem_filter.mp hj).2

/-- Witness for C9 at the concrete parameter value "1, ,x". -/
theorem C9_witness :
    ("1, ,x" : String) ≠ ""
    ∧ ((∃ l, getInitialTopicIds (fun t => if t = "1" then some 1 else none)
          (some "1, ,x") (Except.error ()) = Json.arr l
        ∧ ∀ j ∈ l, j.isFiniteNum = true)
      ∧ getInitialTopicIds (fun t => if t = "1" then some 1 else none)
          none (Except.error ()) = Json.arr []
      ∧ getInitialTopicIds (fun t => if t = "1" then some 1 else none)
          none (Except.ok Json.null) = Json.null
      ∧ getInitialTopicIds (fun t => if t = "1" then some 1 else none)
          (some "") (Except.error ()) = Json.arr []
      ∧ getInitialTopicIds (fun t => if t = "1" then some 1 else none)
          (some "") (Except.ok Json.null) = Json.null) :=
  ⟨by decide,
   C9_topic_ids_parse (fun t => if t = "1" then some 1 else none)
     "1, ,x" (Except.error ()) Json.null (by decide)⟩

/-- C3 counterexample: the frontend enables saving a device that the
status does not report available — with availability
{cpu: false, cuda: true, mps: false} and current device cuda, selecting
cpu enables the save button although cpu is not reported available
(canSaveDevice never consults the cpu flag). -/
theorem C3_counterexample :
    canSaveDevice
        (some { device := Device.cuda,
                available := { cpu := false, cuda := true, mps := false } })
        Device.cpu = true
    ∧ Avail.reports { cpu := false, cuda := true, mps := false } Device.cpu = false := by
  decide

/-- C3 amended: a device-change request for a device not in the cached
availability set fails with DeviceUnavailable (InvalidDevice if the
kind is unrecognized) and leaves the current device unchanged; in the
frontend, saving is enabled exactly when a status is loaded, the
selected device differs from the current one, and — for cuda and mps —
the device is reported available (cpu is never checked against the
availability flags). -/
theorem C3_device_change (st : EncoderState) (requested : String)
    (d : Device) (ms : ModelStatus) (dev : Device) :
    (parseDevice requested = none →
      switch_device st requested = (st, some ApiError.invalidDevice))
    ∧ (parseDevice requested = some d → st.avail.reports d = false →
        switch_device st requested = (st, some ApiError.deviceUnavailable))
    ∧ canSaveDevice none dev = false
    ∧ (canSaveDevice (some ms) dev = true
        ↔ (dev ≠ ms.device
            ∧ (dev = Device.cuda → ms.available.cuda = true)
            ∧ (dev = Device.mps → ms.available.mps = true))) := by
  refine ⟨?_, ?_, rfl, ?_⟩
  · intro h
    simp [switch_device, h]
  · intro h hav
    simp [switch_device, h, hav]
  · cases dev <;> cases hd : ms.device <;> simp [canSaveDevice, hd]

/-- Witness for C3 at a cpu-only host: requesting "tpu" is an invalid
kind, requesting "cuda" is unavailable, and both leave the state
unchanged; the frontend enables saving mps exactly when it is reported
available. -/
theorem C3_witness :
    (switch_device { current := Device.cpu,
                     avail := { cpu := true, cuda := false, mps := false } } "tpu"
      = ({ current := Device.cpu,
           avail := { cpu := true, cuda := false, mps := false } },
         some ApiError.invalidDevice))
    ∧ (switch_device { current := Device.cpu,
                       avail := { cpu := true, cuda := false, mps := false } } "cuda"
      = ({ current := Device.cpu,
           avail := { cpu := true, cuda := false, mps := false } },
         some ApiError.deviceUnavailable)) := by
  constructor
  · exact (C3_device_change
      { current := Device.cpu, avail := { cpu := true, cuda := false, mps := false } }
      "tpu" Device.cpu
      { device := Device.cpu, available := { cpu := true, cuda := false, mps := false } }
      Device.cpu).1 (by decide)
  · exact (C3_device_change
      { current := Device.cpu, avail := { cpu := true, cuda := false, mps := false } }
      "cuda" Device.cuda
      { device := Device.cpu, available := { cpu := true, cuda := false, mps := false } }
      Device.cpu).2.1 (by decide) (by decide)

/-- C7: requesting a page beyond the available results returns an empty
result list, not an error: pagination of any list past its length is
empty, a request that passes validation always yields a successful
response, and the frontend renders an empty successful response as an
empty state, not an error state. -/
theorem C7_pagination_beyond (l ranked byTopic : List Nat)
    (topicsOf : Nat → List Nat) (keyword : String) (topicIds : List Nat)
    (page pageSize : Nat)
    (hbeyond : l.length ≤ (page - 1) * pageSize)
    (hvalid : ¬(keyword = "" ∧ topicIds = [])) :
    paginate l page pageSize = []
    ∧ (∃ res, search_abstracts ranked topicsOf byTopic keyword topicIds
        page pageSize = Except.ok res)
    ∧ (keyword ≠ "" →
        ∃ res, search_authors ranked keyword page pageSize = Except.ok res)
    ∧ SearchPage.render false true none []
      = { showsError := false, showsLoader := false,
          showsEmpty := true, showsResults := false } := by
  refine ⟨?_, ?_, ?_, rfl⟩
  · simp [paginate, List.drop_eq_nil_of_le hbeyond]
  · by_cases hk : keyword = ""
    · have ht : topicIds ≠ [] := fun h => hvalid ⟨hk, h⟩
      simp [search_abstracts, hk, ht, List.isEmpty_iff]
    · simp [search_abstracts, hk]
  · intro hk
    simp [search_authors, hk]

/-- Witness for C7: page 3 of a two-element result pool with page size 2
is empty, and a keyword search succeeds on it. -/
theorem C7_witness :
    ([10, 20] : List Nat).length ≤ (3 - 1) * 2
    ∧ ¬(("q" : String) = "" ∧ ([] : List Nat) = [])
    ∧ (paginate [10, 20] 3 2 = []
      ∧ (∃ res, search_abstracts [10, 20] (fun _ => []) [] "q" [] 3 2
          = Except.ok res)
      ∧ (("q" : String) ≠ "" →
          ∃ res, search_authors [10, 20] "q" 3 2 = Except.ok res)
      ∧ SearchPage.render false true none []
        = { showsError := false, showsLoader := false,
            showsEmpty := true, showsResults := false }) :=
  ⟨by decide, by simp,
   C7_pagination_beyond [10, 20] [10, 20] [] (fun _ => []) "q" [] 3 2
     (by decide) (by simp)⟩

/-- C8: when an import record carries both a topic id and a topic
title, the abstract is linked to the topic identified by the id and the
title is informational only (the call behaves exactly like a call
without the title: it creates no topic from the title and renames
nothing); if only a title is given, a topic is found or created by that
title; if only an id is given, a placeholder topic is created when the
id is unknown. -/
theorem C8_topic_resolution (topics : List Topic) (i : Nat) (t : String)
    (tt : Option String) (tp : Topic) :
    (resolveTopic topics (some i) (some t) = resolveTopic topics (some i) none)
    ∧ (resolveTopic topics (some i) tt).2 = some i
    ∧ (topics.any (fun x => x.id = i) = true →
        resolveTopic topics (some i) tt = (topics, some i))
    ∧ (topics.find? (fun x => x.title = t) = some tp →
        resolveTopic topics none (some t) = (topics, some tp.id))
    ∧ (topics.find? (fun x => x.title = t) = none →
        resolveTopic topics none (some t)
          = (topics ++ [{ id := nextFreeId (topics.map (fun x => x.id)), title := t }],
             some (nextFreeId (topics.map (fun x => x.id)))))
    ∧ (topics.any (fun x => x.id = i) = false →
        resolveTopic topics (some i) tt
          = (topics ++ [{ id := i, title := "" }], some i)) := by
  refine ⟨rfl, ?_, ?_, ?_, ?_, ?_⟩
  · by_cases h : topics.any (fun x => x.id = i) <;> simp [resolveTopic, h]
  · intro h
    simp [resolveTopic, h]
  · intro h
    simp [resolveTopic, h]
  · intro h
    simp [resolveTopic, h]
  · intro h
    simp [resolveTopic, h]

/-- Witness for C8 on the concrete topic table [{id 5, title "NLP"}]:
id 5 with a stray title links to 5 without changes, title "NLP" is
found, title "IR" is created fresh, and unknown id 9 creates a
placeholder. -/
theorem C8_witness :
    (resolveTopic [{ id := 5, title := "NLP" }] (some 5) (some "ignored")
      = resolveTopic [{ id := 5, title := "NLP" }] (some 5) none)
    ∧ (resolveTopic [{ id := 5, title := "NLP" }] (some 5) (some "ignored")).2 = some 5
    ∧ resolveTopic [{ id := 5, title := "NLP" }] (some 5) (some "ignored")
      = ([{ id := 5, title := "NLP" }], some 5)
    ∧ resolveTopic [{ id := 5, title := "NLP" }] none (some "NLP")
      = ([{ id := 5, title := "NLP" }], some 5)
    ∧ resolveTopic [{ id := 5, title := "NLP" }] none (some "IR")
      = ([{ id := 5, title := "NLP" }, { id := 6, title := "IR" }], some 6)
    ∧ resolveTopic [{ id := 5, title := "NLP" }] (some 9) (some "ignored")
      = ([{ id := 5, title := "NLP" }, { id := 9, title := "" }], some 9) := by
  have h5 := C8_topic_resolution [{ id := 5, title := "NLP" }] 5 "NLP"
    (some "ignored") { id := 5, title := "NLP" }
  have h9 := C8_topic_resolution [{ id := 5, title := "NLP" }] 9 "IR"
    (some "ignored") { id := 5, title := "NLP" }
  refine ⟨h5.1, h5.2.1, h5.2.2.1 (by decide), h5.2.2.2.1 (by decide), ?_, ?_⟩
  · have := h9.2.2.2.2.1 (by decide)
    simpa [nextFreeId] using this
  · exact h9.2.2.2.2.2 (by decide)

/-- A successful single-record import inserts exactly one abstract row. -/
theorem importRecord_ok_abstracts (encode : String → Option Emb)
    (db db2 : DB) (r : ImportRecord)
    (h : importRecord encode db r = Except.ok db2) :
    db2.abstracts.length = db.abstracts.length + 1 := by
  cases ht : r.title with
  | none => simp [importRecord, ht] at h
  | some t =>
    cases hc : r.content_raw with
    | none => simp [importRecord, ht, hc] at h
    | some c =>
      simp [importRecord, ht, hc] at h
      subst h
      simp

/-- C5: for every import batch, the abstract count after the import
equals the count before plus imported_count, imported_count plus
skipped_count equals the number of records in the batch, and every
skipped record is reported by exactly one entry of the error list
(per-record failures never abort or roll back the rest of the batch). -/
theorem C5_import_batch_counts (encode : String → Option Emb) (db : DB)
    (rs : List ImportRecord) :
    (importBatch encode db rs).1.abstracts.length
      = db.abstracts.length + (importBatch encode db rs).2.imported
    ∧ (importBatch encode db rs).2.imported
        + (importBatch encode db rs).2.skipped = rs.length
    ∧ (importBatch encode db rs).2.errors.length
        = (importBatch encode db rs).2.skipped := by
  induction rs generalizing db with
  | nil => simp [importBatch]
  | cons r rs ih =>
    cases h : importRecord encode db r with
    | ok db2 =>
      have hlen := importRecord_ok_abstracts encode db db2 r h
      obtain ⟨ih1, ih2, ih3⟩ := ih db2
      simp only [importBatch, h, List.length_cons]
      refine ⟨?_, ?_, ih3⟩ <;> omega
    | error e =>
      obtain ⟨ih1, ih2, ih3⟩ := ih db
      simp only [importBatch, h, List.length_cons, List.length_cons]
      refine ⟨ih1, ?_, ?_⟩ <;> omega

/-- Every VectorIndex operation preserves the single-generation
invariant. -/
theorem idxStep_singleGeneration (st : GenIndex) (op : IdxOp)
    (h : st.singleGeneration) : ((idxStep st op).1).singleGeneration := by
  cases op with
  | upsert id e =>
    by_cases hmem : st.entries.any (fun en => en.id = id)
    · intro en hen
      simp only [idxStep, hmem, if_pos] at hen ⊢
      obtain ⟨en0, hen0, heq⟩ := List.mem_map.mp hen
      by_cases hid : en0.id = id
      · simp [hid] at heq
        subst heq
        exact h en0 hen0
      · simp [hid] at heq
        subst heq
        exact h en0 hen0
    · intro en hen
      simp only [idxStep, hmem, if_neg, Bool.false_eq_true,
        not_false_eq_true] at hen ⊢
      rcases List.mem_append.mp hen with h1 | h1
      · exact h en h1
      · simp at h1
        subst h1
        rfl
  | remove id =>
    intro en hen
    simp only [idxStep] at hen ⊢
    exact h en (List.mem_filter.mp hen).1
  | rebuild_from input =>
    cases hb : buildAll input with
    | ok l =>
      intro en hen
      simp only [idxStep, hb] at hen ⊢
      obtain ⟨p, _, heq⟩ := List.mem_map.mp hen
      subst heq
      rfl
    | error u =>
      intro en hen
      simp only [idxStep, hb] at hen ⊢
      exact h en hen

/-- C4: index rebuild is all-or-nothing: after any sequence of index
operations a reader never observes a VectorIndex mixing entries from
two rebuild generations, and a failed build leaves the previous
generation as the current one, surfacing IndexBuildError, rather than
ever applying a partial result. -/
theorem C4_rebuild_all_or_nothing (ops : List IdxOp) (st : GenIndex)
    (input : List (Nat × Except Unit Emb)) (u : Unit)
    (hfail : buildAll input = Except.error u) :
    GenIndex.singleGeneration (runIdx GenIndex.init ops)
    ∧ idxStep st (IdxOp.rebuild_from input)
      = (st, some ApiError.indexBuild) := by
  constructor
  · have hrun : ∀ (l : List IdxOp) (s : GenIndex),
        s.singleGeneration → (runIdx s l).singleGeneration := by
      intro l
      induction l with
      | nil => intro s hs; exact hs
      | cons op ops ihl =>
        intro s hs
        exact ihl _ (idxStep_singleGeneration s op hs)
    exact hrun ops GenIndex.init (by intro en hen; simp [GenIndex.init] at hen)
  · simp [idxStep, hfail]

/-- Witness for C4: a trace of an upsert, a successful rebuild and a
failed rebuild observes a single-generation index, and a build whose
second item fails changes nothing and surfaces the error. -/
theorem C4_witness :
    GenIndex.singleGeneration (runIdx GenIndex.init
        [IdxOp.upsert 1 [1], IdxOp.rebuild_from [(1, Except.ok [1])],
         IdxOp.rebuild_from [(2, Except.ok [2]), (3, Except.error ())]])
    ∧ idxStep { gen := 4, entries := [{ id := 1, emb := [1], gen := 4 }] }
        (IdxOp.rebuild_from [(2, Except.ok [2]), (3, Except.error ())])
      = ({ gen := 4, entries := [{ id := 1, emb := [1], gen := 4 }] },
         some ApiError.indexBuild) :=
  C4_rebuild_all_or_nothing
    [IdxOp.upsert 1 [1], IdxOp.rebuild_from [(1, Except.ok [1])],
     IdxOp.rebuild_from [(2, Except.ok [2]), (3, Except.error ())]]
    { gen := 4, entries := [{ id := 1, emb := [1], gen := 4 }] }
    [(2, Except.ok [2]), (3, Except.error ())] () rfl

end AuthorRetrieval
